import Mathlib

/-!
Verification of the pizza-ai-agent call-session engine.

Shallow embedding of:
  - app/models/conversation.py   (ConversationState, CustomerInfo, ConversationContext)
  - app/handlers/conversation_manager.py  (_execute_action, _collect_customer_info,
    _create_order, _voice_response, _error_response)
  - app/handlers/media_stream_handler.py  (_process_media_message,
    _process_accumulated_audio) together with the base64 decoding and the
    audioop mu-law conversions they call
  - app/handlers/voice_handler.py  (call_status) and
    app/services/langchain_service.py (clear_memory)

Modelling conventions: Python `Optional[str]` fields that are only ever used
through truthiness (`if not x`) are modelled as `String`, with `""` standing
for both `None` and the empty string.  External collaborators (the LLM
extractor, the commerce backend, speech synthesis) are modelled as oracle
inputs: their results are parameters of the embedded functions.  Byte strings
are `List Nat` (each entry a byte value).
-/

namespace PizzaAgent

/-- `ConversationState` enum from app/models/conversation.py (lines 5-12). -/
inductive ConversationState where
  | WELCOME
  | TAKING_ORDER
  | CONFIRMING_CART
  | COLLECTING_INFO
  | CREATING_ORDER
  | ORDER_COMPLETE
  | ERROR
deriving DecidableEq, Repr

/-- `CustomerInfo` from app/models/conversation.py (lines 14-18).
`name`, `phone`, `address` default to `None` in the source and are only read
through truthiness; `""` models the absent value.  `payment_method` defaults
to `"efectivo"`. -/
structure CustomerInfo where
  name : String := ""
  phone : String := ""
  address : String := ""
  payment_method : String := "efectivo"
deriving DecidableEq, Repr

/-- `ConversationContext` from app/models/conversation.py (lines 20-28).
`catalog` and `conversation_history` never influence the verified operations
and are kept only as data. -/
structure ConversationContext where
  call_sid : String := ""
  state : ConversationState := ConversationState.WELCOME
  cart_token : String := ""
  customer_info : CustomerInfo := {}
  conversation_history : List (String × String) := []
  last_customer_message : String := ""
  attempts : Nat := 0
deriving DecidableEq, Repr

/-- `ConversationContext.update_state` (conversation.py lines 30-32). -/
def ConversationContext.update_state (c : ConversationContext)
    (new_state : ConversationState) : ConversationContext :=
  { c with state := new_state }

/-- `ConversationContext.is_customer_info_complete` (conversation.py lines
41-47): truthiness of all of name, phone, address. -/
def ConversationContext.is_customer_info_complete (c : ConversationContext) : Bool :=
  c.customer_info.name != "" && c.customer_info.phone != "" &&
    c.customer_info.address != ""

/-- `ConversationContext.reset_attempts` (conversation.py lines 49-51).
Defined in the source but never invoked by any caller. -/
def ConversationContext.reset_attempts (c : ConversationContext) : ConversationContext :=
  { c with attempts := 0 }

/-- `ConversationContext.increment_attempts` (conversation.py lines 53-55). -/
def ConversationContext.increment_attempts (c : ConversationContext) : ConversationContext :=
  { c with attempts := c.attempts + 1 }

/-- The dict returned by `_voice_response` / `_error_response`
(conversation_manager.py lines 351-389).  The TwiML string is abstracted to
the data that determines it: the spoken `message` and whether the TwiML
contains a `<Hangup/>` verb (`hangup = true`) or instead a `<Gather>` plus
`<Redirect>` that keeps the call alive (`hangup = false`). -/
structure TwimlResponse where
  action : String
  message : String
  hangup : Bool
deriving DecidableEq, Repr

/-- `_voice_response(text, hangup=False)` (conversation_manager.py lines
351-374): action "voice_response"; TwiML hangs up iff the flag is set. -/
def voice_response (text : String) (hangup : Bool := false) : TwimlResponse :=
  { action := "voice_response", message := text, hangup := hangup }

/-- `_error_response(message)` (conversation_manager.py lines 376-389): the
TwiML always ends with `<Hangup/>`. -/
def error_response (message : String) : TwimlResponse :=
  { action := "error", message := message, hangup := true }

/-- Result of `_extract_customer_info_ai` (conversation_manager.py lines
221-260): an external LLM call, modelled as an oracle value.  Each field is
read through truthiness (`extracted_info.get("name")`), so `""` models both
`null` and the empty string. -/
structure ExtractedInfo where
  name : String := ""
  phone : String := ""
  address : String := ""
deriving DecidableEq, Repr

/-- `''.join(filter(str.isdigit, s))` (conversation_manager.py line 282). -/
def digitsOnly (s : String) : String :=
  String.mk (s.data.filter Char.isDigit)

/-- The field-update block of `_collect_customer_info`
(conversation_manager.py lines 276-289): each of name, phone, address is
written only if currently empty and the extractor produced a truthy value;
a phone candidate is first filtered to its digits and stored only when at
least 7 digits remain. -/
def apply_extracted_info (ci : CustomerInfo) (extracted : ExtractedInfo) : CustomerInfo :=
  let ci := if ci.name == "" && extracted.name != "" then
      { ci with name := extracted.name } else ci
  let ci := if ci.phone == "" && extracted.phone != "" then
      let phone := digitsOnly extracted.phone
      if 7 ≤ phone.length then { ci with phone := phone } else ci
    else ci
  let ci := if ci.address == "" && extracted.address != "" then
      { ci with address := extracted.address } else ci
  ci

/-- `_collect_customer_info(context, ai_result)` (conversation_manager.py
lines 262-307), with the external AI extraction passed as the oracle
`extracted`.  After the field updates: if all three fields are truthy the
state becomes CREATING_ORDER with the fixed confirmation text; otherwise the
response prompts for the first missing field in the order name, phone,
address and the state is unchanged. -/
def collect_customer_info (context : ConversationContext) (response_text : String)
    (extracted : ExtractedInfo) : ConversationContext × TwimlResponse :=
  let ci := apply_extracted_info context.customer_info extracted
  let context := { context with customer_info := ci }
  if ci.name != "" && ci.phone != "" && ci.address != "" then
    (context.update_state ConversationState.CREATING_ORDER,
     voice_response "Perfecto. Tengo toda tu información. Voy a procesar tu pedido.")
  else if ci.name == "" then
    (context, voice_response "Por favor, dime tu nombre.")
  else if ci.phone == "" then
    (context, voice_response "¿Cuál es tu número de teléfono?")
  else if ci.address == "" then
    (context, voice_response "¿Cuál es tu dirección de entrega?")
  else
    (context, voice_response response_text)

/-- Success payload of the commerce backend's order creation
(`pizza_api.create_order`, pizza_api_service.py lines 111-152). -/
structure OrderData where
  id : Nat
  view_url : String
deriving DecidableEq, Repr

/-- The payload `_create_order` sends to `pizza_api.create_order`
(conversation_manager.py lines 321-327). -/
structure OrderRequest where
  cart_token : String
  customer_name : String
  customer_phone : String
  customer_address : String
  payment_method : String
deriving DecidableEq, Repr

/-- Spoken confirmation text of a successful order
(conversation_manager.py lines 335-340), abstracted to its data. -/
def order_confirm_text (order_id : Nat) (view_url : String) : String :=
  "¡Perfecto! Tu pedido número " ++ toString order_id ++
    " ha sido confirmado. Puedes ver los detalles en: " ++ view_url ++
    " Te llegará en aproximadamente 30 minutos. ¡Gracias por elegir Pizza Project!"

/-- `_create_order(context)` (conversation_manager.py lines 309-349).
`order_result` is the oracle for the backend call's outcome; the third
component records the request issued to the backend (none when the guard
rejects before calling it).  On success the state becomes ORDER_COMPLETE and
the voice response hangs up; on backend failure `_error_response` is
returned and the state is unchanged. -/
def create_order (context : ConversationContext) (order_result : Option OrderData) :
    ConversationContext × TwimlResponse × Option OrderRequest :=
  if !context.is_customer_info_complete then
    (context,
     voice_response "Necesito tu información completa para procesar el pedido.",
     none)
  else
    let req : OrderRequest :=
      { cart_token := context.cart_token,
        customer_name := context.customer_info.name,
        customer_phone := context.customer_info.phone,
        customer_address := context.customer_info.address,
        payment_method := context.customer_info.payment_method }
    match order_result with
    | some od =>
        (context.update_state ConversationState.ORDER_COMPLETE,
         voice_response (order_confirm_text od.id od.view_url) true,
         some req)
    | none =>
        (context, error_response "No pude procesar tu pedido. Intenta de nuevo.", some req)

/-- The parsed AI result driving `_execute_action`
(langchain_service.py PizzaOrderParser.parse, lines 16-59). -/
structure AIResult where
  action : String
  response_text : String
  product : String := ""
  size : String := ""
  quantity : Nat := 1
deriving DecidableEq, Repr

/-- Oracle bundle for the external collaborators `_execute_action` touches:
`add_success` is `_add_product_to_cart`'s outcome, `cart_summary` is
`_get_cart_summary`'s text, `extracted` the AI extractor's output, and
`order_result` the backend's order-create outcome. -/
structure Externals where
  add_success : Bool := false
  cart_summary : String := ""
  extracted : ExtractedInfo := {}
  order_result : Option OrderData := none
deriving DecidableEq, Repr

/-- `_execute_action(context, ai_result)` (conversation_manager.py lines
84-144).  Returns the new context, the response dict, and the order-create
request issued to the backend, if any. -/
def execute_action (context : ConversationContext) (ai : AIResult) (ext : Externals) :
    ConversationContext × TwimlResponse × Option OrderRequest :=
  if ai.action == "welcome" then
    (context.update_state ConversationState.TAKING_ORDER,
     voice_response ai.response_text, none)
  else if ai.action == "add_product" then
    if ext.add_success then
      (context.update_state ConversationState.TAKING_ORDER,
       voice_response ai.response_text, none)
    else
      (context, voice_response "No pude agregar ese producto. ¿Puedes repetir tu pedido?",
       none)
  else if ai.action == "confirm_cart" then
    (context.update_state ConversationState.CONFIRMING_CART,
     voice_response (ai.response_text ++ " " ++ ext.cart_summary), none)
  else if ai.action == "collect_customer_info" then
    let context := context.update_state ConversationState.COLLECTING_INFO
    let r := collect_customer_info context ai.response_text ext.extracted
    (r.1, r.2, none)
  else if ai.action == "create_order" then
    if !context.is_customer_info_complete then
      let r := collect_customer_info context "Extrayendo información..." ext.extracted
      if r.1.is_customer_info_complete then
        create_order r.1 ext.order_result
      else
        (r.1.update_state ConversationState.COLLECTING_INFO, r.2, none)
    else
      create_order context ext.order_result
  else if ai.action == "clarification" then
    if context.state == ConversationState.COLLECTING_INFO then
      let r := collect_customer_info context ai.response_text ext.extracted
      (r.1, r.2, none)
    else
      let context := context.increment_attempts
      if 3 < context.attempts then
        (context,
         voice_response "Parece que tenemos dificultades. Te transfiero con un operador humano.",
         none)
      else
        (context, voice_response ai.response_text, none)
  else
    (context, voice_response ai.response_text, none)

/-! ### Base64 decoding (`base64.b64decode`, used at media_stream_handler.py line 83)

Standard base64 alphabet; characters outside the alphabet are discarded
before the padding check (as `b64decode` does with `validate=False`); after
that the length must be a multiple of 4, `=` may appear only as the final
one or two characters of the input, and a failed decode raises (here:
`none`), in which case the handler logs and drops the frame. -/

/-- Value of a base64 alphabet character. -/
def b64charVal (c : Char) : Option Nat :=
  if 'A' ≤ c ∧ c ≤ 'Z' then some (c.toNat - 'A'.toNat)
  else if 'a' ≤ c ∧ c ≤ 'z' then some (c.toNat - 'a'.toNat + 26)
  else if '0' ≤ c ∧ c ≤ '9' then some (c.toNat - '0'.toNat + 52)
  else if c = '+' then some 62
  else if c = '/' then some 63
  else none

/-- Decode a run of base64 quads (input already filtered to alphabet
characters and `=`).  Leftover of 1-3 characters is a padding error. -/
def b64decodeQuads : List Char → Option (List Nat)
  | [] => some []
  | c1 :: c2 :: c3 :: c4 :: rest => do
      let v1 ← b64charVal c1
      let v2 ← b64charVal c2
      if c3 = '=' then
        if c4 = '=' ∧ rest = [] then
          some [v1 * 4 + v2 / 16]
        else none
      else do
        let v3 ← b64charVal c3
        if c4 = '=' then
          if rest = [] then some [v1 * 4 + v2 / 16, v2 % 16 * 16 + v3 / 4]
          else none
        else do
          let v4 ← b64charVal c4
          let bytes ← b64decodeQuads rest
          some ((v1 * 4 + v2 / 16) :: (v2 % 16 * 16 + v3 / 4) :: (v3 % 4 * 64 + v4) :: bytes)
  | _ => none

/-- `base64.b64decode` on a string payload. -/
def b64decode (s : String) : Option (List Nat) :=
  b64decodeQuads (s.data.filter (fun c => (b64charVal c).isSome || c = '='))

/-! ### Mu-law codec (`audioop.ulaw2lin` / `audioop.lin2ulaw` with width 2)

Embedded from CPython's `Modules/audioop.c` (`st_ulaw2linear16`,
`st_14linear2ulaw`), which the handler calls at media_stream_handler.py
lines 112 and 189.  16-bit samples are carried as two bytes in
little-endian order. -/

/-- `st_ulaw2linear16`: one mu-law byte to one signed 16-bit sample. -/
def st_ulaw2linear16 (uval : Nat) : Int :=
  let u := 255 - uval % 256
  let t := ((u &&& 15) <<< 3) + 132
  let t := t <<< ((u >>> 4) &&& 7)
  if u &&& 128 ≠ 0 then (132 : Int) - (t : Int) else (t : Int) - 132

/-- Two's-complement encoding of a 16-bit sample as two little-endian bytes. -/
def int16ToBytes (v : Int) : List Nat :=
  let w := (v.emod 65536).toNat
  [w % 256, w / 256]

/-- Signed 16-bit sample from two little-endian bytes. -/
def bytesToInt16 (lo hi : Nat) : Int :=
  let w := hi % 256 * 256 + lo % 256
  if 32768 ≤ w then (w : Int) - 65536 else (w : Int)

/-- `audioop.ulaw2lin(fragment, 2)`: each mu-law byte becomes one 16-bit
sample (two bytes). -/
def ulaw2lin (fragment : List Nat) : List Nat :=
  (fragment.map (fun b => int16ToBytes (st_ulaw2linear16 b))).flatten

/-- Segment upper ends `seg_uend` from audioop.c. -/
def ulawSegUend : List Int := [63, 127, 255, 511, 1023, 2047, 4095, 8191]

/-- `search(val, seg_uend, 8)`: index of the first segment end that is not
exceeded, or 8 when out of range. -/
def ulawSearch (val : Int) : Nat :=
  match ulawSegUend.findIdx? (fun t => decide (val ≤ t)) with
  | some i => i
  | none => 8

/-- `st_14linear2ulaw`: one 14-bit sample to one mu-law byte. -/
def st_14linear2ulaw (pcm0 : Int) : Nat :=
  let pm : Int × Nat := if pcm0 < 0 then (-pcm0, 0x7F) else (pcm0, 0xFF)
  let pcmVal := if 32635 < pm.1 then 32635 else pm.1
  let pcmVal := pcmVal + 33
  let seg := ulawSearch pcmVal
  if 8 ≤ seg then 0x7F ^^^ pm.2
  else ((seg <<< 4) ||| ((pcmVal.toNat >>> (seg + 1)) &&& 0xF)) ^^^ pm.2

/-- `audioop.lin2ulaw(fragment, 2)`: consumes two bytes (one little-endian
16-bit sample) per output byte; the sample is arithmetically shifted right
by 2 (floor division by 4) before `st_14linear2ulaw`, matching
`GETSAMPLE32(2, cp, i) >> 18`.  A fragment whose length is not a whole
number of frames raises `audioop.error` (here: `none`). -/
def lin2ulaw : List Nat → Option (List Nat)
  | [] => some []
  | lo :: hi :: rest => do
      let us ← lin2ulaw rest
      some (st_14linear2ulaw ((bytesToInt16 lo hi).fdiv 4) :: us)
  | _ => none

/-! ### Media stream handler (app/handlers/media_stream_handler.py) -/

/-- The inbound protocol envelope event kinds parsed by
`_process_media_message` (lines 63-91); `media` carries the raw base64
payload string (`""` models a missing/empty payload); unknown events fall
into `other`. -/
inductive MediaEvent where
  | connected
  | start (streamSid : String)
  | media (payload : String)
  | stop
  | other (event : String)
deriving DecidableEq, Repr

/-- Replace the value at a key in an association list, appending the pair
when the key is absent (dict item assignment). -/
def setKey (l : List (String × α)) (k : String) (v : α) : List (String × α) :=
  match l with
  | [] => [(k, v)]
  | (k', v') :: rest => if k' == k then (k, v) :: rest else (k', v') :: setKey rest k v

/-- The per-call mutable state of `MediaStreamHandler` (lines 21-24):
`audio_buffers` maps a call sid to its accumulated decoded bytes
(`defaultdict(io.BytesIO)`), `stream_sids` maps a call sid to its stream
sid. -/
structure MediaStreamState where
  audio_buffers : List (String × List Nat) := []
  stream_sids : List (String × String) := []
deriving DecidableEq, Repr

/-- The content of a call's audio buffer, with the `defaultdict` view: an
absent key reads as an empty buffer. -/
def bufferOf (st : MediaStreamState) (call_sid : String) : List Nat :=
  (st.audio_buffers.lookup call_sid).getD []

/-- The data flowing out of a non-empty flush in
`_process_accumulated_audio`: the mu-law bytes read from the buffer and
their `audioop.ulaw2lin(audio_data, 2)` transcoding (line 112), which is
what gets wrapped in a WAV container and sent to transcription.  A `none`
outcome means no transcode, no transcription request and no response. -/
structure FlushResult where
  audio_data : List Nat
  pcm_data : List Nat
deriving DecidableEq, Repr

/-- `_process_accumulated_audio(call_sid)` (lines 93-126 up to the
transcode): a missing buffer or one with no written bytes (`tell() == 0`)
is a logged no-op leaving the state untouched; otherwise the buffer is read
whole, the stored buffer is replaced by a fresh empty one, and the bytes
are transcoded for transcription. -/
def process_accumulated_audio (call_sid : String) (st : MediaStreamState) :
    MediaStreamState × Option FlushResult :=
  match st.audio_buffers.lookup call_sid with
  | none => (st, none)
  | some data =>
      if data == [] then (st, none)
      else
        ({ st with audio_buffers := setKey st.audio_buffers call_sid [] },
         some { audio_data := data, pcm_data := ulaw2lin data })

/-- `_process_media_message(call_sid, message)` (lines 63-91): `connected`
and unknown events are ignored; `start` records the stream sid; `media`
with a truthy payload base64-decodes it and appends the bytes to the
call's buffer (a decode failure is logged and the frame dropped); `stop`
flushes via `_process_accumulated_audio`. -/
def process_media_message (call_sid : String) (message : MediaEvent)
    (st : MediaStreamState) : MediaStreamState × Option FlushResult :=
  match message with
  | MediaEvent.connected => (st, none)
  | MediaEvent.start streamSid =>
      ({ st with stream_sids := setKey st.stream_sids call_sid streamSid }, none)
  | MediaEvent.media payload =>
      if payload != "" then
        match b64decode payload with
        | some decoded =>
            ({ st with audio_buffers :=
                (setKey st.audio_buffers call_sid (bufferOf st call_sid ++ decoded)) },
             none)
        | none => (st, none)
      else (st, none)
  | MediaEvent.stop => process_accumulated_audio call_sid st
  | MediaEvent.other _ => (st, none)

/-- Run a sequence of inbound events for one call, keeping the state. -/
def process_events (call_sid : String) (events : List MediaEvent)
    (st : MediaStreamState) : MediaStreamState :=
  events.foldl (fun s ev => (process_media_message call_sid ev s).1) st

/-! ### Session registry teardown (voice_handler.py `call_status`,
langchain_service.py `clear_memory`) -/

/-- The process-wide registries touched by call teardown, as finite maps
keyed by call sid: `conversation_manager.active_conversations` (call sid to
context) and `langchain_service.memories` (call sid to its
ConversationBufferMemory, whose content is external LLM state and is
modelled by key presence alone). -/
structure AgentState where
  active_conversations : String → Option ConversationContext := fun _ => none
  memories : String → Option Unit := fun _ => none

/-- `LangchainService.clear_memory(call_sid)` (langchain_service.py lines
204-208): delete the call's memory if present, else do nothing. -/
def clear_memory (memories : String → Option Unit) (call_sid : String) :
    String → Option Unit :=
  if (memories call_sid).isSome then
    fun k => if k = call_sid then none else memories k
  else memories

/-- The terminal statuses checked at voice_handler.py line 168. -/
def terminalStatuses : List String :=
  ["completed", "busy", "no-answer", "failed", "canceled"]

/-- The cleanup branch of the `/status` webhook (voice_handler.py lines
158-178): on a terminal status, if the call sid is registered, its
conversation is deleted (`del active_conversations[call_sid]`) and the
dialogue collaborator's `clear_memory` is invoked; otherwise nothing
happens.  The second component counts how many times `clear_memory` was
invoked while handling this notification. -/
def call_status (st : AgentState) (call_sid : String) (status : String) :
    AgentState × Nat :=
  if status ∈ terminalStatuses then
    if (st.active_conversations call_sid).isSome then
      ({ active_conversations := fun k =>
           if k = call_sid then none else st.active_conversations k,
         memories := clear_memory st.memories call_sid }, 1)
    else (st, 0)
  else (st, 0)

/-! ## Supporting lemmas -/

theorem apply_extracted_info_name (ci : CustomerInfo) (e : ExtractedInfo) :
    (apply_extracted_info ci e).name =
      if ci.name = "" ∧ e.name ≠ "" then e.name else ci.name := by
  simp only [apply_extracted_info]
  split_ifs <;> simp_all

theorem apply_extracted_info_phone (ci : CustomerInfo) (e : ExtractedInfo) :
    (apply_extracted_info ci e).phone =
      if ci.phone = "" ∧ e.phone ≠ "" ∧ 7 ≤ (digitsOnly e.phone).length then
        digitsOnly e.phone
      else ci.phone := by
  simp only [apply_extracted_info]
  split_ifs <;> simp_all

theorem apply_extracted_info_address (ci : CustomerInfo) (e : ExtractedInfo) :
    (apply_extracted_info ci e).address =
      if ci.address = "" ∧ e.address ≠ "" then e.address else ci.address := by
  simp only [apply_extracted_info]
  split_ifs <;> simp_all

theorem apply_extracted_info_payment (ci : CustomerInfo) (e : ExtractedInfo) :
    (apply_extracted_info ci e).payment_method = ci.payment_method := by
  simp only [apply_extracted_info]
  split_ifs <;> simp_all

theorem collect_customer_info_customer_info (ctx : ConversationContext)
    (rt : String) (e : ExtractedInfo) :
    (collect_customer_info ctx rt e).1.customer_info =
      apply_extracted_info ctx.customer_info e := by
  simp only [collect_customer_info, ConversationContext.update_state]
  split_ifs <;> rfl

theorem collect_customer_info_state (ctx : ConversationContext)
    (rt : String) (e : ExtractedInfo) :
    (collect_customer_info ctx rt e).1.state =
      (if (collect_customer_info ctx rt e).1.is_customer_info_complete then
        ConversationState.CREATING_ORDER
      else ctx.state) := by
  simp only [collect_customer_info, ConversationContext.update_state,
    ConversationContext.is_customer_info_complete]
  split_ifs <;> simp_all

theorem collect_customer_info_attempts (ctx : ConversationContext)
    (rt : String) (e : ExtractedInfo) :
    (collect_customer_info ctx rt e).1.attempts = ctx.attempts := by
  simp only [collect_customer_info, ConversationContext.update_state]
  split_ifs <;> rfl

theorem collect_customer_info_complete_state (ctx : ConversationContext)
    (rt : String) (e : ExtractedInfo)
    (h : (collect_customer_info ctx rt e).1.state = ConversationState.CREATING_ORDER)
    (hctx : ctx.state ≠ ConversationState.CREATING_ORDER) :
    (collect_customer_info ctx rt e).1.is_customer_info_complete = true := by
  rw [collect_customer_info_state] at h
  by_cases hc : (collect_customer_info ctx rt e).1.is_customer_info_complete = true
  · exact hc
  · rw [if_neg (by simp_all)] at h
    exact absurd h hctx

theorem create_order_customer_info (ctx : ConversationContext) (r : Option OrderData) :
    (create_order ctx r).1.customer_info = ctx.customer_info := by
  simp only [create_order, ConversationContext.update_state]
  split_ifs <;> cases r <;> rfl

theorem create_order_attempts (ctx : ConversationContext) (r : Option OrderData) :
    (create_order ctx r).1.attempts = ctx.attempts := by
  simp only [create_order, ConversationContext.update_state]
  split_ifs <;> cases r <;> rfl

theorem create_order_fst_none (ctx : ConversationContext)
    (h : ctx.is_customer_info_complete = true) :
    (create_order ctx none).1 = ctx := by
  simp [create_order, h]

theorem create_order_fst_some (ctx : ConversationContext) (od : OrderData)
    (h : ctx.is_customer_info_complete = true) :
    (create_order ctx (some od)).1 =
      ctx.update_state ConversationState.ORDER_COMPLETE := by
  simp [create_order, h]

theorem create_order_request (ctx : ConversationContext) (r : Option OrderData)
    (req : OrderRequest) (h : (create_order ctx r).2.2 = some req) :
    req.payment_method = ctx.customer_info.payment_method := by
  cases r <;> simp only [create_order] at h <;> split_ifs at h <;>
    simp_all <;> exact (h ▸ rfl)

/-- The resulting customer info of any `_execute_action` dispatch is either
the incoming one or the incoming one after local extraction. -/
theorem execute_action_customer_info (context : ConversationContext)
    (ai : AIResult) (ext : Externals) :
    (execute_action context ai ext).1.customer_info = context.customer_info ∨
    (execute_action context ai ext).1.customer_info =
      apply_extracted_info context.customer_info ext.extracted := by
  simp only [execute_action]
  split_ifs <;>
    simp_all [collect_customer_info_customer_info, create_order_customer_info,
      ConversationContext.update_state, ConversationContext.increment_attempts]

theorem ulaw2lin_length (fragment : List Nat) :
    (ulaw2lin fragment).length = 2 * fragment.length := by
  induction fragment with
  | nil => rfl
  | cons b rest ih =>
      simp only [ulaw2lin, List.map_cons, List.flatten_cons, List.length_append,
        int16ToBytes, List.length_cons, List.length_nil] at ih ⊢
      omega

theorem lin2ulaw_length (fragment out : List Nat)
    (h : lin2ulaw fragment = some out) :
    2 * out.length = fragment.length := by
  induction fragment using lin2ulaw.induct generalizing out with
  | case1 =>
      simp only [lin2ulaw, Option.some.injEq] at h
      subst h; rfl
  | case2 lo hi rest ih =>
      simp only [lin2ulaw, Option.bind_eq_bind, Option.bind_eq_some] at h
      obtain ⟨us, hus, hout⟩ := h
      injection hout with hout
      subst hout
      have := ih us hus
      simp only [List.length_cons]
      omega
  | case3 x h1 h2 =>
      simp only [lin2ulaw] at h
      cases h

theorem lin2ulaw_total_of_even (fragment : List Nat) (n : Nat)
    (h : fragment.length = 2 * n) :
    ∃ out, lin2ulaw fragment = some out ∧ out.length = n := by
  induction fragment using lin2ulaw.induct generalizing n with
  | case1 =>
      exact ⟨[], rfl, by simp at h ⊢; omega⟩
  | case2 lo hi rest ih =>
      simp only [List.length_cons] at h
      obtain ⟨m, hm⟩ : ∃ m, n = m + 1 := ⟨n - 1, by omega⟩
      subst hm
      obtain ⟨us, hus, hlen⟩ := ih m (by omega)
      exact ⟨st_14linear2ulaw ((bytesToInt16 lo hi).fdiv 4) :: us,
        by simp [lin2ulaw, hus], by simp [hlen]⟩
  | case3 x h1 h2 =>
      exfalso
      rcases x with _ | ⟨a, _ | ⟨b, rest⟩⟩
      · exact h1 rfl
      · simp only [List.length_cons, List.length_nil] at h; omega
      · exact h2 a b rest rfl

/-! ### Association-list and buffer lemmas -/

theorem lookup_setKey_self (l : List (String × α)) (k : String) (v : α) :
    (setKey l k v).lookup k = some v := by
  induction l with
  | nil => simp [setKey, List.lookup]
  | cons p rest ih =>
      obtain ⟨k', v'⟩ := p
      by_cases hk : k' = k
      · simp [setKey, hk, List.lookup]
      · simp only [setKey, beq_iff_eq, hk, if_false]
        simpa [List.lookup, show (k == k') = false by simp [Ne.symm hk]] using ih

theorem bufferOf_media_append (sid : String) (p : String) (st : MediaStreamState)
    (hp : (b64decode p).isSome) :
    bufferOf (process_media_message sid (MediaEvent.media p) st).1 sid =
      bufferOf st sid ++ (b64decode p).getD [] := by
  simp only [process_media_message]
  by_cases hpe : p = ""
  · subst hpe
    simp [bufferOf, show b64decode "" = some [] from rfl]
  · rw [if_pos (by simpa using hpe)]
    obtain ⟨d, hd⟩ := Option.isSome_iff_exists.mp hp
    rw [hd]
    simp [bufferOf, lookup_setKey_self, hd]

theorem bufferOf_process_media_events (sid : String) (ps : List String)
    (st : MediaStreamState) (h : ∀ p ∈ ps, (b64decode p).isSome) :
    bufferOf (process_events sid (ps.map MediaEvent.media) st) sid =
      bufferOf st sid ++ (ps.map fun p => (b64decode p).getD []).flatten := by
  induction ps generalizing st with
  | nil => simp [process_events]
  | cons p rest ih =>
      simp only [List.map_cons, process_events, List.foldl_cons]
      rw [show (List.foldl (fun s ev => (process_media_message sid ev s).1)
            (process_media_message sid (MediaEvent.media p) st).1
            (rest.map MediaEvent.media)) =
          process_events sid (rest.map MediaEvent.media)
            (process_media_message sid (MediaEvent.media p) st).1 from rfl]
      rw [ih _ (fun q hq => h q (List.mem_cons_of_mem _ hq))]
      rw [bufferOf_media_append sid p st (h p (List.mem_cons_self _ _))]
      simp [List.append_assoc]

/-- Any order-create request issued by `_execute_action` carries the acting
session's payment method. -/
theorem execute_action_request (context : ConversationContext) (ai : AIResult)
    (ext : Externals) (req : OrderRequest)
    (h : (execute_action context ai ext).2.2 = some req) :
    req.payment_method = context.customer_info.payment_method := by
  simp only [execute_action] at h
  split_ifs at h
  · have hr := create_order_request _ ext.order_result req h
    rwa [collect_customer_info_customer_info, apply_extracted_info_payment] at hr
  · exact create_order_request _ ext.order_result req h

/-! ## Claims -/

/-- C9: The mu-law codec conversions preserve sample count 1:1: decoding N
mu-law bytes with 2-byte width yields exactly N 16-bit PCM samples (2N
bytes), and encoding 16-bit PCM of N samples yields exactly N mu-law
bytes, so encode-then-decode of N PCM samples returns N samples. -/
theorem mulaw_sample_count_preserved (bs pcm : List Nat) (n : Nat)
    (h : pcm.length = 2 * n) :
    (ulaw2lin bs).length = 2 * bs.length
    ∧ ∃ mu, lin2ulaw pcm = some mu ∧ mu.length = n
        ∧ (ulaw2lin mu).length = 2 * n := by
  refine ⟨ulaw2lin_length bs, ?_⟩
  obtain ⟨mu, hmu, hlen⟩ := lin2ulaw_total_of_even pcm n h
  exact ⟨mu, hmu, hlen, by rw [ulaw2lin_length, hlen]⟩

/-- Witness for C9 at two concrete fragments. -/
theorem mulaw_sample_count_preserved_witness :
    ([0, 0, 1, 128] : List Nat).length = 2 * 2
    ∧ ((ulaw2lin [0, 127, 255]).length = 2 * ([0, 127, 255] : List Nat).length
      ∧ ∃ mu, lin2ulaw [0, 0, 1, 128] = some mu ∧ mu.length = 2
          ∧ (ulaw2lin mu).length = 2 * 2) :=
  ⟨by decide, mulaw_sample_count_preserved [0, 127, 255] [0, 0, 1, 128] 2 (by decide)⟩

/-- C8: A stop event delivered when the call's audio buffer is empty is a
logged no-op: no transcode is performed, no transcription call is issued,
no response is sent, and the handler returns without error (result state
unchanged, no FlushResult produced). -/
theorem stop_empty_buffer_noop (sid : String) (st : MediaStreamState)
    (h : bufferOf st sid = []) :
    process_media_message sid MediaEvent.stop st = (st, none) := by
  simp only [process_media_message, process_accumulated_audio]
  cases hl : st.audio_buffers.lookup sid with
  | none => rfl
  | some data =>
      have hdata : data = [] := by simpa [bufferOf, hl] using h
      subst hdata
      simp

/-- Witness for C8: a call whose buffer exists but holds no bytes. -/
theorem stop_empty_buffer_noop_witness :
    bufferOf { audio_buffers := [("CA1", [])], stream_sids := [] } "CA1" = []
    ∧ process_media_message "CA1" MediaEvent.stop
        { audio_buffers := [("CA1", [])], stream_sids := [] } =
        ({ audio_buffers := [("CA1", [])], stream_sids := [] }, none) :=
  ⟨by decide,
   stop_empty_buffer_noop "CA1" { audio_buffers := [("CA1", [])], stream_sids := [] }
     (by decide)⟩

/-- C7: When a terminal call-status is received for a registered call, the
session mapping for that callId is removed (a subsequent lookup returns
absent), `clear_memory(callId)` is invoked exactly once across repeated
terminal notifications, and a second terminal notification for the same
callId is a no-op. -/
theorem terminal_status_cleanup (st : AgentState) (sid status : String)
    (ctx : ConversationContext)
    (hterm : status ∈ terminalStatuses)
    (hpresent : st.active_conversations sid = some ctx) :
    (call_status st sid status).1.active_conversations sid = none
    ∧ (call_status st sid status).2 = 1
    ∧ call_status (call_status st sid status).1 sid status =
        ((call_status st sid status).1, 0)
    ∧ (call_status st sid status).2 +
        (call_status (call_status st sid status).1 sid status).2 = 1 := by
  have e1 : call_status st sid status =
      ({ active_conversations := fun k =>
           if k = sid then none else st.active_conversations k,
         memories := clear_memory st.memories sid }, 1) := by
    simp [call_status, hterm, hpresent]
  have e2 : (call_status st sid status).1.active_conversations sid = none := by
    rw [e1]; simp
  refine ⟨e2, by rw [e1], ?_, ?_⟩
  · rw [e1]; simp [call_status, hterm]
  · rw [e1]; simp [call_status, hterm]

/-- Witness for C7: call "A1" in the registry receives "completed" twice. -/
theorem terminal_status_cleanup_witness :
    ("completed" ∈ terminalStatuses
      ∧ (fun k => if k = "A1" then some ({} : ConversationContext) else none) "A1"
          = some {})
    ∧ ((call_status
          { active_conversations := fun k => if k = "A1" then some {} else none,
            memories := fun k => if k = "A1" then some () else none }
          "A1" "completed").1.active_conversations "A1" = none
      ∧ (call_status
          { active_conversations := fun k => if k = "A1" then some {} else none,
            memories := fun k => if k = "A1" then some () else none }
          "A1" "completed").2 = 1
      ∧ call_status (call_status
          { active_conversations := fun k => if k = "A1" then some {} else none,
            memories := fun k => if k = "A1" then some () else none }
          "A1" "completed").1 "A1" "completed" =
          ((call_status
          { active_conversations := fun k => if k = "A1" then some {} else none,
            memories := fun k => if k = "A1" then some () else none }
          "A1" "completed").1, 0)
      ∧ (call_status
          { active_conversations := fun k => if k = "A1" then some {} else none,
            memories := fun k => if k = "A1" then some () else none }
          "A1" "completed").2 +
        (call_status (call_status
          { active_conversations := fun k => if k = "A1" then some {} else none,
            memories := fun k => if k = "A1" then some () else none }
          "A1" "completed").1 "A1" "completed").2 = 1) :=
  ⟨⟨by decide, rfl⟩,
   terminal_status_cleanup
     { active_conversations := fun k => if k = "A1" then some {} else none,
       memories := fun k => if k = "A1" then some () else none }
     "A1" "completed" {} (by decide) rfl⟩

/-- C6: A phone candidate extracted from an utterance is stored into
customerInfo.phone if and only if the digit run obtained by filtering the
candidate to digits has length at least 7 (the phone field being currently
empty); the stored value is the digits-only string. -/
theorem phone_digit_run_acceptance (ci : CustomerInfo) (e : ExtractedInfo)
    (h : ci.phone = "") :
    (apply_extracted_info ci e).phone =
      (if 7 ≤ (digitsOnly e.phone).length then digitsOnly e.phone else "")
    ∧ ((apply_extracted_info ci e).phone ≠ "" ↔ 7 ≤ (digitsOnly e.phone).length) := by
  rw [apply_extracted_info_phone]
  by_cases he : e.phone = ""
  · simp [h, he, show digitsOnly "" = "" from rfl,
      show ("" : String).length = 0 from rfl]
  · by_cases hlen : 7 ≤ (digitsOnly e.phone).length
    · have hne : digitsOnly e.phone ≠ "" := by
        intro hc; rw [hc] at hlen; simp at hlen
      simp [h, he, hlen, hne]
    · simp [h, he, hlen]

/-- Witness for C6: the spec's scenario utterance, phone candidate
"5551234567" (10 digits, accepted), next to a rejected short candidate. -/
theorem phone_digit_run_acceptance_witness :
    (({} : CustomerInfo).phone = ""
      ∧ (apply_extracted_info {} { name := "Ana", phone := "5551234567" }).phone
          = (if 7 ≤ (digitsOnly "5551234567").length then digitsOnly "5551234567" else ""))
    ∧ (apply_extracted_info {} { phone := "12 34 5" }).phone
        = (if 7 ≤ (digitsOnly "12 34 5").length then digitsOnly "12 34 5" else "") :=
  ⟨⟨rfl, (phone_digit_run_acceptance {} { name := "Ana", phone := "5551234567" } rfl).1⟩,
   (phone_digit_run_acceptance {} { phone := "12 34 5" } rfl).1⟩

/-- C5: Each customerInfo field (name, phone, address) is
write-once-then-frozen: the field-extraction step writes a field only if it
is currently empty (in the source order name, phone, address), and no
dispatched action ever overwrites or erases a non-empty field. -/
theorem customer_info_write_once_frozen (context : ConversationContext)
    (ai : AIResult) (ext : Externals) :
    (∀ (ci : CustomerInfo) (e : ExtractedInfo),
      (apply_extracted_info ci e).name =
          (if ci.name = "" ∧ e.name ≠ "" then e.name else ci.name)
      ∧ (apply_extracted_info ci e).phone =
          (if ci.phone = "" ∧ e.phone ≠ "" ∧ 7 ≤ (digitsOnly e.phone).length then
            digitsOnly e.phone else ci.phone)
      ∧ (apply_extracted_info ci e).address =
          (if ci.address = "" ∧ e.address ≠ "" then e.address else ci.address))
    ∧ (context.customer_info.name ≠ "" →
        (execute_action context ai ext).1.customer_info.name =
          context.customer_info.name)
    ∧ (context.customer_info.phone ≠ "" →
        (execute_action context ai ext).1.customer_info.phone =
          context.customer_info.phone)
    ∧ (context.customer_info.address ≠ "" →
        (execute_action context ai ext).1.customer_info.address =
          context.customer_info.address) := by
  refine ⟨fun ci e => ⟨apply_extracted_info_name ci e, apply_extracted_info_phone ci e,
    apply_extracted_info_address ci e⟩, ?_, ?_, ?_⟩
  · intro hne
    rcases execute_action_customer_info context ai ext with hc | hc
    · rw [hc]
    · rw [hc, apply_extracted_info_name, if_neg (fun hcontra => hne hcontra.1)]
  · intro hne
    rcases execute_action_customer_info context ai ext with hc | hc
    · rw [hc]
    · rw [hc, apply_extracted_info_phone, if_neg (fun hcontra => hne hcontra.1)]
  · intro hne
    rcases execute_action_customer_info context ai ext with hc | hc
    · rw [hc]
    · rw [hc, apply_extracted_info_address, if_neg (fun hcontra => hne hcontra.1)]

/-- Witness for C5: a filled customer record survives a collect action whose
extractor proposes different values. -/
theorem customer_info_write_once_frozen_witness :
    (({ customer_info := { name := "Ana", phone := "5551234567", address := "Calle 1" } }
        : ConversationContext).customer_info.name ≠ ""
      ∧ ({ customer_info := { name := "Ana", phone := "5551234567", address := "Calle 1" } }
        : ConversationContext).customer_info.phone ≠ "")
    ∧ (execute_action
        { customer_info := { name := "Ana", phone := "5551234567", address := "Calle 1" } }
        { action := "collect_customer_info", response_text := "r" }
        { extracted := { name := "Eve", phone := "9998887770", address := "Otra calle" } }
        ).1.customer_info.name =
        ({ customer_info := { name := "Ana", phone := "5551234567", address := "Calle 1" } }
          : ConversationContext).customer_info.name
    ∧ (execute_action
        { customer_info := { name := "Ana", phone := "5551234567", address := "Calle 1" } }
        { action := "collect_customer_info", response_text := "r" }
        { extracted := { name := "Eve", phone := "9998887770", address := "Otra calle" } }
        ).1.customer_info.phone =
        ({ customer_info := { name := "Ana", phone := "5551234567", address := "Calle 1" } }
          : ConversationContext).customer_info.phone :=
  ⟨⟨by decide, by decide⟩,
   (customer_info_write_once_frozen
      { customer_info := { name := "Ana", phone := "5551234567", address := "Calle 1" } }
      { action := "collect_customer_info", response_text := "r" }
      { extracted := { name := "Eve", phone := "9998887770", address := "Otra calle" } }
     ).2.1 (by decide),
   (customer_info_write_once_frozen
      { customer_info := { name := "Ana", phone := "5551234567", address := "Calle 1" } }
      { action := "collect_customer_info", response_text := "r" }
      { extracted := { name := "Eve", phone := "9998887770", address := "Otra calle" } }
     ).2.2.1 (by decide)⟩

/-- C10: customerInfo.payment_method is the constant "efectivo": it starts
as "efectivo", no dispatched action ever writes it, the completeness check
depends only on name, phone and address, and every backend order-create
request is issued with payment_method "efectivo". -/
theorem payment_method_always_efectivo (context : ConversationContext)
    (ai : AIResult) (ext : Externals)
    (hp : context.customer_info.payment_method = "efectivo") :
    ({} : CustomerInfo).payment_method = "efectivo"
    ∧ (execute_action context ai ext).1.customer_info.payment_method = "efectivo"
    ∧ (∀ req, (execute_action context ai ext).2.2 = some req →
        req.payment_method = "efectivo")
    ∧ (∀ (c : ConversationContext) (s : String),
        ConversationContext.is_customer_info_complete
          { c with customer_info := { c.customer_info with payment_method := s } } =
          c.is_customer_info_complete) := by
  refine ⟨rfl, ?_, ?_, fun c s => rfl⟩
  · rcases execute_action_customer_info context ai ext with hc | hc
    · rw [hc, hp]
    · rw [hc, apply_extracted_info_payment, hp]
  · intro req h
    rw [execute_action_request context ai ext req h, hp]

/-- Witness for C10: a complete session issuing a create_order request. -/
theorem payment_method_always_efectivo_witness :
    ({ customer_info := { name := "Ana", phone := "5551234567", address := "Calle 1" } }
        : ConversationContext).customer_info.payment_method = "efectivo"
    ∧ (({} : CustomerInfo).payment_method = "efectivo"
      ∧ (execute_action
          { customer_info := { name := "Ana", phone := "5551234567", address := "Calle 1" } }
          { action := "create_order", response_text := "r" }
          { order_result := some { id := 1, view_url := "u" } }
          ).1.customer_info.payment_method = "efectivo"
      ∧ (∀ req, (execute_action
          { customer_info := { name := "Ana", phone := "5551234567", address := "Calle 1" } }
          { action := "create_order", response_text := "r" }
          { order_result := some { id := 1, view_url := "u" } }).2.2 = some req →
          req.payment_method = "efectivo")
      ∧ (∀ (c : ConversationContext) (s : String),
          ConversationContext.is_customer_info_complete
            { c with customer_info := { c.customer_info with payment_method := s } } =
            c.is_customer_info_complete)) :=
  ⟨by decide,
   payment_method_always_efectivo
     { customer_info := { name := "Ana", phone := "5551234567", address := "Calle 1" } }
     { action := "create_order", response_text := "r" }
     { order_result := some { id := 1, view_url := "u" } } (by decide)⟩

/-- C4: For any sequence of media frames followed by a stop event on one
call, the byte string flushed at the stop equals the concatenation (hence
its length the sum of lengths) of the base64-decoded payloads of all media
frames received since the previous flush or session start, and the flush
resets the buffer to empty as one operation. -/
theorem media_flush_concatenation (sid : String) (ps : List String)
    (st0 : MediaStreamState)
    (hdec : ∀ p ∈ ps, (b64decode p).isSome)
    (hstart : bufferOf st0 sid = []) :
    bufferOf (process_events sid (ps.map MediaEvent.media) st0) sid =
      (ps.map fun p => (b64decode p).getD []).flatten
    ∧ ((ps.map fun p => (b64decode p).getD []).flatten).length =
        (ps.map fun p => ((b64decode p).getD []).length).sum
    ∧ ((ps.map fun p => (b64decode p).getD []).flatten ≠ [] →
        (process_media_message sid MediaEvent.stop
            (process_events sid (ps.map MediaEvent.media) st0)).2 =
          some { audio_data := (ps.map fun p => (b64decode p).getD []).flatten,
                 pcm_data := ulaw2lin ((ps.map fun p => (b64decode p).getD []).flatten) }
        ∧ bufferOf (process_media_message sid MediaEvent.stop
            (process_events sid (ps.map MediaEvent.media) st0)).1 sid = []) := by
  have hbuf := bufferOf_process_media_events sid ps st0 hdec
  rw [hstart, List.nil_append] at hbuf
  refine ⟨hbuf, ?_, ?_⟩
  · rw [List.length_flatten, List.map_map]
    rfl
  · intro hne
    have hlk : (process_events sid (ps.map MediaEvent.media) st0).audio_buffers.lookup
        sid = some ((ps.map fun p => (b64decode p).getD []).flatten) := by
      rcases hl : (process_events sid (ps.map MediaEvent.media) st0).audio_buffers.lookup
          sid with _ | d
      · rw [bufferOf, hl, Option.getD_none] at hbuf
        exact absurd hbuf.symm hne
      · rw [bufferOf, hl, Option.getD_some] at hbuf
        rw [hbuf]
    have hbeq : (((ps.map fun p => (b64decode p).getD []).flatten : List Nat) == []) =
        false := beq_eq_false_iff_ne.mpr hne
    constructor
    · simp only [process_media_message, process_accumulated_audio, hlk, hbeq,
        Bool.false_eq_true, if_false]
    · simp only [process_media_message, process_accumulated_audio, hlk, hbeq,
        Bool.false_eq_true, if_false, bufferOf, lookup_setKey_self, Option.getD_some]

/-- Witness for C4: two decodable frames ("aGk=" for "hi", "IQ==" for "!")
followed by a stop. -/
theorem media_flush_concatenation_witness :
    ((∀ p ∈ (["aGk=", "IQ=="] : List String), (b64decode p).isSome)
      ∧ bufferOf { audio_buffers := [], stream_sids := [] } "CA1" = [])
    ∧ (bufferOf (process_events "CA1" ((["aGk=", "IQ=="] : List String).map
          MediaEvent.media) { audio_buffers := [], stream_sids := [] }) "CA1" =
        ((["aGk=", "IQ=="] : List String).map fun p => (b64decode p).getD []).flatten
      ∧ (((["aGk=", "IQ=="] : List String).map fun p => (b64decode p).getD []).flatten).length =
          ((["aGk=", "IQ=="] : List String).map fun p => ((b64decode p).getD []).length).sum
      ∧ (((["aGk=", "IQ=="] : List String).map fun p => (b64decode p).getD []).flatten ≠ [] →
          (process_media_message "CA1" MediaEvent.stop
              (process_events "CA1" ((["aGk=", "IQ=="] : List String).map MediaEvent.media)
                { audio_buffers := [], stream_sids := [] })).2 =
            some { audio_data := ((["aGk=", "IQ=="] : List String).map fun p =>
                     (b64decode p).getD []).flatten,
                   pcm_data := ulaw2lin (((["aGk=", "IQ=="] : List String).map fun p =>
                     (b64decode p).getD []).flatten) }
          ∧ bufferOf (process_media_message "CA1" MediaEvent.stop
              (process_events "CA1" ((["aGk=", "IQ=="] : List String).map MediaEvent.media)
                { audio_buffers := [], stream_sids := [] })).1 "CA1" = [])) :=
  ⟨⟨by decide, by decide⟩,
   media_flush_concatenation "CA1" ["aGk=", "IQ=="]
     { audio_buffers := [], stream_sids := [] } (by decide) (by decide)⟩

/-- If a dispatch lands in CREATING_ORDER from any state other than
CREATING_ORDER itself, the customer info of the resulting session is
complete. -/
theorem execute_action_creating_state_complete (context : ConversationContext)
    (ai : AIResult) (ext : Externals)
    (hstate : context.state ≠ ConversationState.CREATING_ORDER)
    (h : (execute_action context ai ext).1.state = ConversationState.CREATING_ORDER) :
    (execute_action context ai ext).1.is_customer_info_complete = true := by
  simp only [execute_action] at h ⊢
  split_ifs at h ⊢ with h1 h2 h3 h4 h5 h6 h7 h8 h9 h10 h11
  · simp [ConversationContext.update_state] at h
  · simp [ConversationContext.update_state] at h
  · simp at h; exact absurd h hstate
  · simp [ConversationContext.update_state] at h
  · exact collect_customer_info_complete_state _ _ _ h
      (by simp [ConversationContext.update_state])
  · rcases ho : ext.order_result with _ | od
    · rw [ho, create_order_fst_none _ h8] at h
      rw [create_order_fst_none _ h8]
      exact h8
    · rw [ho, create_order_fst_some _ _ h8] at h
      simp [ConversationContext.update_state] at h
  · simp [ConversationContext.update_state] at h
  · have hcomp : context.is_customer_info_complete = true := by simpa using h7
    rcases ho : ext.order_result with _ | od
    · rw [ho, create_order_fst_none _ hcomp] at h
      exact absurd h hstate
    · rw [ho, create_order_fst_some _ _ hcomp] at h
      simp [ConversationContext.update_state] at h
  · exact collect_customer_info_complete_state _ _ _ h hstate
  · simp [ConversationContext.increment_attempts] at h
    exact absurd h hstate
  · simp [ConversationContext.increment_attempts] at h
    exact absurd h hstate
  · simp at h; exact absurd h hstate

/-- C2 counterexample: on the 4th consecutive unresolved clarification
(attempts 3, incremented to 4) the hand-off message is emitted, but the
call does not end: the response's TwiML has no Hangup verb (`_voice_response`
is called without `hangup=True`), so it gathers further speech. -/
theorem clarification_handoff_call_not_ended_cex :
    (execute_action { state := ConversationState.TAKING_ORDER, attempts := 3 }
        { action := "clarification", response_text := "¿Puedes repetir?" } {}).1.attempts = 4
    ∧ (execute_action { state := ConversationState.TAKING_ORDER, attempts := 3 }
        { action := "clarification", response_text := "¿Puedes repetir?" } {}).2.1.message =
        "Parece que tenemos dificultades. Te transfiero con un operador humano."
    ∧ (execute_action { state := ConversationState.TAKING_ORDER, attempts := 3 }
        { action := "clarification", response_text := "¿Puedes repetir?" } {}).2.1.hangup =
        false := by
  decide

/-- C2 (amended): for every clarification action handled outside
COLLECTING_INFO, the attempt counter is incremented and the state is
unchanged; if the counter then exceeds 3 the hand-off message is emitted
(but the response does not hang up, so the call is not ended), and at 3 or
fewer the normal reprompt is emitted. -/
theorem clarification_attempts_and_handoff (context : ConversationContext)
    (ai : AIResult) (ext : Externals)
    (ha : ai.action = "clarification")
    (hs : context.state ≠ ConversationState.COLLECTING_INFO) :
    (execute_action context ai ext).1.attempts = context.attempts + 1
    ∧ (execute_action context ai ext).1.state = context.state
    ∧ (execute_action context ai ext).2.1.hangup = false
    ∧ (3 < context.attempts + 1 →
        (execute_action context ai ext).2.1.message =
          "Parece que tenemos dificultades. Te transfiero con un operador humano.")
    ∧ (context.attempts + 1 ≤ 3 →
        (execute_action context ai ext).2.1.message = ai.response_text) := by
  have hb : (context.state == ConversationState.COLLECTING_INFO) = false :=
    beq_eq_false_iff_ne.mpr hs
  simp only [execute_action, ha, hb]
  simp [ConversationContext.increment_attempts, voice_response]
  split_ifs with h3 <;> simp_all <;> omega

/-- Witness for C2 at a session in TAKING_ORDER with one prior attempt. -/
theorem clarification_attempts_and_handoff_witness :
    (({ action := "clarification", response_text := "¿Qué pizza deseas?" }
        : AIResult).action = "clarification"
      ∧ ({ state := ConversationState.TAKING_ORDER, attempts := 1 }
        : ConversationContext).state ≠ ConversationState.COLLECTING_INFO)
    ∧ ((execute_action { state := ConversationState.TAKING_ORDER, attempts := 1 }
          { action := "clarification", response_text := "¿Qué pizza deseas?" } {}).1.attempts =
        ({ state := ConversationState.TAKING_ORDER, attempts := 1 }
          : ConversationContext).attempts + 1
      ∧ (execute_action { state := ConversationState.TAKING_ORDER, attempts := 1 }
          { action := "clarification", response_text := "¿Qué pizza deseas?" } {}).1.state =
        ({ state := ConversationState.TAKING_ORDER, attempts := 1 }
          : ConversationContext).state
      ∧ (execute_action { state := ConversationState.TAKING_ORDER, attempts := 1 }
          { action := "clarification", response_text := "¿Qué pizza deseas?" } {}).2.1.hangup =
          false
      ∧ (3 < ({ state := ConversationState.TAKING_ORDER, attempts := 1 }
            : ConversationContext).attempts + 1 →
          (execute_action { state := ConversationState.TAKING_ORDER, attempts := 1 }
            { action := "clarification", response_text := "¿Qué pizza deseas?" } {}).2.1.message =
            "Parece que tenemos dificultades. Te transfiero con un operador humano.")
      ∧ (({ state := ConversationState.TAKING_ORDER, attempts := 1 }
            : ConversationContext).attempts + 1 ≤ 3 →
          (execute_action { state := ConversationState.TAKING_ORDER, attempts := 1 }
            { action := "clarification", response_text := "¿Qué pizza deseas?" } {}).2.1.message =
            ({ action := "clarification", response_text := "¿Qué pizza deseas?" }
              : AIResult).response_text)) :=
  ⟨⟨rfl, by decide⟩,
   clarification_attempts_and_handoff
     { state := ConversationState.TAKING_ORDER, attempts := 1 }
     { action := "clarification", response_text := "¿Qué pizza deseas?" } {}
     rfl (by decide)⟩

/-- C3 evaluated on the code: after a successful add_product action, and
after advancing past COLLECTING_INFO to CREATING_ORDER, the attempt counter
keeps its old value 2 instead of being reset to 0 — `reset_attempts` exists
(conversation.py lines 49-51) but is never invoked anywhere. -/
theorem attempts_not_reset_on_progress :
    (execute_action { state := ConversationState.TAKING_ORDER, attempts := 2 }
        { action := "add_product", response_text := "Listo", product := "margarita" }
        { add_success := true }).1.attempts = 2
    ∧ (execute_action { state := ConversationState.COLLECTING_INFO, attempts := 2 }
        { action := "collect_customer_info", response_text := "r" }
        { extracted := { name := "Ana", phone := "5551234567", address := "Calle 1" } }
        ).1.state = ConversationState.CREATING_ORDER
    ∧ (execute_action { state := ConversationState.COLLECTING_INFO, attempts := 2 }
        { action := "collect_customer_info", response_text := "r" }
        { extracted := { name := "Ana", phone := "5551234567", address := "Calle 1" } }
        ).1.attempts = 2 := by
  decide

/-- C1: For every session in state COLLECTING_INFO, the state never becomes
CREATING_ORDER while any of customer name, phone, or address is empty:
`_collect_customer_info` sets CREATING_ORDER only when all three fields are
non-empty, and a create_order action arriving with incomplete customer info
first runs local extraction and, if still incomplete, behaves as
collect_customer_info and leaves the state at COLLECTING_INFO. -/
theorem collecting_info_creating_order_guard (context : ConversationContext)
    (ai : AIResult) (ext : Externals)
    (hstate : context.state = ConversationState.COLLECTING_INFO) :
    ((execute_action context ai ext).1.state = ConversationState.CREATING_ORDER →
      (execute_action context ai ext).1.is_customer_info_complete = true)
    ∧ (∀ (rt : String) (e : ExtractedInfo),
        (collect_customer_info context rt e).1.state = ConversationState.CREATING_ORDER →
        (collect_customer_info context rt e).1.is_customer_info_complete = true)
    ∧ (ai.action = "create_order" →
        context.is_customer_info_complete = false →
        (collect_customer_info context "Extrayendo información..."
            ext.extracted).1.is_customer_info_complete = false →
        (execute_action context ai ext).1.state = ConversationState.COLLECTING_INFO
        ∧ (execute_action context ai ext).2.1 =
            (collect_customer_info context "Extrayendo información..." ext.extracted).2) := by
  refine ⟨?_, ?_, ?_⟩
  · exact execute_action_creating_state_complete context ai ext (by rw [hstate]; simp)
  · intro rt e hcs
    exact collect_customer_info_complete_state context rt e hcs (by rw [hstate]; simp)
  · intro hact hc1 hc2
    constructor <;>
      simp [execute_action, hact, hc1, hc2, ConversationContext.update_state]

/-- Witness for C1: a COLLECTING_INFO session with only a name, receiving a
create_order action whose extraction still leaves the info incomplete. -/
theorem collecting_info_creating_order_guard_witness :
    (({ state := ConversationState.COLLECTING_INFO, customer_info := { name := "Ana" } }
        : ConversationContext).state = ConversationState.COLLECTING_INFO
      ∧ ({ state := ConversationState.COLLECTING_INFO, customer_info := { name := "Ana" } }
        : ConversationContext).is_customer_info_complete = false
      ∧ (collect_customer_info
          { state := ConversationState.COLLECTING_INFO, customer_info := { name := "Ana" } }
          "Extrayendo información..."
          ({ extracted := { phone := "12 3" } } : Externals).extracted
          ).1.is_customer_info_complete = false)
    ∧ ((execute_action
          { state := ConversationState.COLLECTING_INFO, customer_info := { name := "Ana" } }
          { action := "create_order", response_text := "r" }
          { extracted := { phone := "12 3" } }).1.state =
            ConversationState.COLLECTING_INFO
      ∧ (execute_action
          { state := ConversationState.COLLECTING_INFO, customer_info := { name := "Ana" } }
          { action := "create_order", response_text := "r" }
          { extracted := { phone := "12 3" } }).2.1 =
          (collect_customer_info
            { state := ConversationState.COLLECTING_INFO, customer_info := { name := "Ana" } }
            "Extrayendo información..."
            ({ extracted := { phone := "12 3" } } : Externals).extracted).2) :=
  ⟨⟨rfl, by decide, by decide⟩,
   (collecting_info_creating_order_guard
      { state := ConversationState.COLLECTING_INFO, customer_info := { name := "Ana" } }
      { action := "create_order", response_text := "r" }
      { extracted := { phone := "12 3" } } rfl).2.2 rfl (by decide) (by decide)⟩

end PizzaAgent
